import Mathlib

/-!
Shallow embedding of the flespi synchronizer pipelines
(`src/app.js`, `src/index.js`, `src/unnamed/part_000`, `src/unnamed/part_001`):
MQTT message handlers that normalize telemetry payloads and either publish
them in size-bounded batches to an event stream or insert them into a table.
-/

namespace Flespi

/-- A scalar JSON value as it appears as a field of a flespi payload object.
`pnull` models JSON `null`. -/
inductive Prim where
  | pbool (b : Bool)
  | pnum (n : Int)
  | pstr (s : String)
  | pnull
deriving DecidableEq, Repr

/-- A payload object: the JS object the handler iterates over, as an
association list of keys to scalar values. -/
abbrev Payload := List (String × Prim)

/-- One element of the array produced by `normalizeToArray`: either an object
or a non-object JSON value (number, string, boolean, null). Processing a
non-object element throws (`jsonKey in p` raises a TypeError), which the
per-record catch turns into a skip. -/
inductive Item where
  | obj (p : Payload)
  | prim (v : Prim)
deriving DecidableEq, Repr

/-- The result of `JSON.parse` at top level. -/
inductive Parsed where
  | arr (xs : List Item)
  | obj (p : Payload)
  | prim (v : Prim)
deriving DecidableEq, Repr

/-- `normalizeToArray(parsed)`: an array is returned as is, a non-null object
is wrapped in a one-element array, anything else gives the empty array. -/
def normalizeToArray : Parsed → List Item
  | .arr xs => xs
  | .obj p => [.obj p]
  | .prim _ => []

/-- Models JS `Number(s)` for a string, on the fragment exercised here:
the empty string converts to 0, a digit string to its value, anything else
is NaN (`none`). -/
def jsNumberOfString (s : String) : Option Int :=
  if s = "" then some 0 else (s.toNat?).map Int.ofNat

/-- Models JS `Number(v)` on a scalar; `none` is NaN. -/
def jsNumber : Prim → Option Int
  | .pbool true => some 1
  | .pbool false => some 0
  | .pnum n => some n
  | .pstr s => jsNumberOfString s
  | .pnull => some 0

/-- Models JS `String(v)` on a scalar. -/
def jsString : Prim → String
  | .pbool true => "true"
  | .pbool false => "false"
  | .pnum n => toString n
  | .pstr s => s
  | .pnull => "null"

/-- `b2i(v)` from the source: true↦1, false↦0, null↦undefined, otherwise
`Number(v)` when finite. -/
def b2i : Prim → Option Int
  | .pbool true => some 1
  | .pbool false => some 0
  | .pnull => none
  | v => jsNumber v

/-- `num(v)` from the source: null↦undefined, otherwise `Number(v)` when
finite. -/
def num : Prim → Option Int
  | .pnull => none
  | v => jsNumber v

/-- `str(v)` from the source: null↦undefined, otherwise `String(v)` when
non-empty. -/
def str : Prim → Option String
  | .pnull => none
  | v => let s := jsString v; if s = "" then none else some s

/-- Left-pad a natural to two digits, as the source's `pad`. -/
def pad2 (n : Nat) : String :=
  if n < 10 then "0" ++ toString n else toString n

/-- Left-pad a natural to three digits (the milliseconds field of
`toISOString`). -/
def pad3 (n : Nat) : String :=
  if n < 100 then "0" ++ pad2 n else toString n

/-- Civil date from days since the epoch 1970-01-01 (proleptic Gregorian),
the arithmetic `Date` performs internally: returns (year, month, day). -/
def civilFromDays (days : Int) : Int × Nat × Nat :=
  let z := days + 719468
  let era := Int.ediv z 146097
  let doe := (Int.emod z 146097).toNat
  let yoe := (doe - doe / 1460 + doe / 36524 - doe / 146096) / 365
  let y := (yoe : Int) + era * 400
  let doy := doe - (365 * yoe + yoe / 4 - yoe / 100)
  let mp := (5 * doy + 2) / 153
  let d := doy - (153 * mp + 2) / 5 + 1
  let m := if mp < 10 then mp + 3 else mp - 9
  (if m ≤ 2 then y + 1 else y, m, d)

/-- Year formatting of `toISOString` (four digits for the years reached
here). -/
def padYear (y : Int) : String :=
  if y < 0 then "-" ++ toString (-y)
  else if y < 10 then "000" ++ toString y
  else if y < 100 then "00" ++ toString y
  else if y < 1000 then "0" ++ toString y
  else toString y

/-- `new Date(ms).toISOString()` for an integral count of milliseconds since
the epoch. -/
def isoOfMs (ms : Int) : String :=
  let msPart := (Int.emod ms 1000).toNat
  let secs := Int.ediv ms 1000
  let dayN := Int.ediv secs 86400
  let sod := (Int.emod secs 86400).toNat
  let c := civilFromDays dayN
  padYear c.1 ++ "-" ++ pad2 c.2.1 ++ "-" ++ pad2 c.2.2 ++ "T" ++
    pad2 (sod / 3600) ++ ":" ++ pad2 (sod % 3600 / 60) ++ ":" ++
    pad2 (sod % 60) ++ "." ++ pad3 msPart ++ "Z"

/-- `unixSecondsToIsoUtc(ts)` from the source: `Number(ts)` when finite,
values above 1e12 are taken as milliseconds, otherwise seconds, then
formatted as ISO UTC. -/
def unixSecondsToIsoUtc (v : Prim) : Option String :=
  match jsNumber v with
  | none => none
  | some n =>
    let ms : Int := if n > 1000000000000 then n else n * 1000
    some (isoOfMs ms)

/-- Field lookup on a payload object: `key in p` together with `p[key]`. -/
def getKey (p : Payload) (k : String) : Option Prim :=
  (p.find? (fun kv => kv.1 == k)).map (fun kv => kv.2)

/-- The row assembled by `buildRowFromPayload` in `src/app.js` /
`src/unnamed/part_000`: one named optional field per column of
`KEY_TO_COL`, plus the fixed default fields the function stamps. -/
structure Row where
  deviceID : Option String := none
  protocolVersion : Option String := none
  dateTime : Option String := none
  latitude : Option Int := none
  longitude : Option Int := none
  ignition_status : Option Int := none
  speed : Option Int := none
  mileage : Option Int := none
  mcc : Option Int := none
  cellID : Option Int := none
  lacID : Option Int := none
  altitude : Option Int := none
  OperadorGps : Option String := none
  imei : Option String := none
  bat : Option Int := none
  battery : Option Int := none
  lock_status : Option Int := none
  insertDateTime : Option String := none
deriving DecidableEq, Repr

/-- `buildRowFromPayload(p)` from `src/app.js`: each `KEY_TO_COL` entry whose
key is present and whose converter yields a defined value becomes a row
field; then the fixed defaults are stamped, `imei` copies `deviceID`,
`insertDateTime` is the wall-clock instant `now` of the call
(`new Date().toISOString()`), and `mileage` is defaulted to 0. -/
def buildRowFromPayload (p : Payload) (now : String) : Row :=
  let r : Row := {
    deviceID := (getKey p "ident").bind str
    protocolVersion := (getKey p "protocol.version").bind str
    dateTime := (getKey p "timestamp").bind unixSecondsToIsoUtc
    latitude := (getKey p "position.latitude").bind num
    longitude := (getKey p "position.longitude").bind num
    ignition_status := (getKey p "engine.ignition.status").bind b2i
    speed := (getKey p "position.speed").bind num
    mileage := (getKey p "vehicle.mileage").bind num
    mcc := (getKey p "gsm.mcc").bind num
    cellID := (getKey p "gsm.cellid").bind num
    lacID := (getKey p "gsm.lac").bind num
    altitude := (getKey p "position.altitude").bind num }
  { r with
    OperadorGps := some "QL-GV300"
    imei := r.deviceID
    bat := some 100
    battery := some 100
    lock_status := some 1
    insertDateTime := some now
    mileage := some (r.mileage.getD 0) }

/-- `makeEventId(row)` from the source: `row.deviceID || "noDevice"` joined
by `_` with `row.dateTime || ""` (JS `||` takes the right operand on the
empty string and on a missing field). -/
def makeEventId (row : Row) : String :=
  (match row.deviceID with
    | some d => if d = "" then "noDevice" else d
    | none => "noDevice") ++ "_" ++
  (match row.dateTime with
    | some s => s
    | none => "")

/-! ### Batch publisher (success path)

The loop body of `client.on("message")` in `src/app.js` /
`src/unnamed/part_000`: `batch.tryAdd`, on rejection `sendBatch` +
`createBatch` + one retried `tryAdd`, and a final `sendBatch` of a
non-empty batch. The byte size of a serialized event and the backend's
batch ceiling are opaque, so they are parameters `size` and `cap`;
`tryAdd` accepts exactly when the batch stays within the ceiling. -/

variable {E : Type}

/-- Total serialized size of the events in an open batch. -/
def batchSize (size : E → Nat) (b : List E) : Nat := (b.map size).sum

/-- `batch.tryAdd(event)`: accepts iff the event keeps the batch within the
byte-size ceiling. -/
def tryAdd (size : E → Nat) (cap : Nat) (b : List E) (e : E) : Bool :=
  decide (batchSize size b + size e ≤ cap)

/-- Publisher state: batches passed to `sendBatch` so far, the open batch,
and the events reported too large. -/
structure BatchState (E : Type) where
  flushed : List (List E)
  cur : List E
  skipped : List E
deriving DecidableEq, Repr

/-- One iteration of the publish loop, as the code writes it:
`ok = batch.tryAdd(ev); if (!ok) { sendBatch(batch); batch = createBatch();
ok2 = batch.tryAdd(ev); if (!ok2) skip; }`. -/
def pubStep (size : E → Nat) (cap : Nat) (s : BatchState E) (e : E) :
    BatchState E :=
  let ok := tryAdd size cap s.cur e
  if ok then { s with cur := s.cur ++ [e] }
  else
    let s1 : BatchState E :=
      { flushed := s.flushed ++ [s.cur], cur := [], skipped := s.skipped }
    let ok2 := tryAdd size cap s1.cur e
    if ok2 then { s1 with cur := s1.cur ++ [e] }
    else { s1 with skipped := s1.skipped ++ [e] }

/-- End of input: `if (batch.count > 0) await producer.sendBatch(batch)`. -/
def pubFinish (s : BatchState E) : BatchState E :=
  if s.cur.isEmpty then s
  else { s with flushed := s.flushed ++ [s.cur], cur := [] }

/-- The whole publish pass of one message over its transformed events. -/
def publish (size : E → Nat) (cap : Nat) (events : List E) : BatchState E :=
  pubFinish (events.foldl (pubStep size cap) ⟨[], [], []⟩)

/-- Modelled from the spec: flushing the current batch to the stream and
opening a fresh one (§4.3). -/
def specFlush (s : BatchState E) : BatchState E :=
  { s with flushed := s.flushed ++ [s.cur], cur := [] }

/-- Modelled from the spec: for each event attempt an append; if rejected,
flush the current batch, open a fresh batch and retry the append once; if
the retried append is also rejected, record the event as skipped (§4.3). -/
def specStep (size : E → Nat) (cap : Nat) (s : BatchState E) (e : E) :
    BatchState E :=
  if tryAdd size cap s.cur e then { s with cur := s.cur ++ [e] }
  else
    let s1 := specFlush s
    if tryAdd size cap s1.cur e then { s1 with cur := s1.cur ++ [e] }
    else { s1 with skipped := s1.skipped ++ [e] }

/-- Modelled from the spec: after the input sequence is exhausted, flush any
non-empty open batch (§4.3). -/
def specPublish (size : E → Nat) (cap : Nat) (events : List E) :
    BatchState E :=
  let t := events.foldl (specStep size cap) ⟨[], [], []⟩
  if t.cur.isEmpty then t else specFlush t

/-! ### Message handler: transform + guard + publish

The per-item body of the handler: build the row, require `row.deviceID`,
synthesize the event and feed it to the batch loop. A non-object item makes
`jsonKey in p` throw a TypeError, which the per-record catch turns into a
skip of just that item. -/

/-- The event body published to the stream: the row plus `eventId`,
`_topic` and `_receivedAtUtc`. -/
structure Event where
  row : Row
  eventId : String
  topic : String
  receivedAtUtc : String
deriving DecidableEq, Repr

/-- One iteration of the `for (const p of items)` loop of
`src/app.js` / `src/unnamed/part_000` (counter updates such as `added` and
`skipped++` on the guard are observability only and not part of the
state). -/
def handlerStep (esize : Event → Nat) (cap : Nat) (topic now : String)
    (s : BatchState Event) : Item → BatchState Event
  | .prim _ => s
  | .obj p =>
    let row := buildRowFromPayload p now
    match row.deviceID with
    | none => s
    | some d =>
      if d = "" then s
      else
        let ev : Event :=
          { row := row, eventId := makeEventId row, topic := topic,
            receivedAtUtc := now }
        pubStep esize cap s ev

/-- The whole `client.on("message")` handler of the publisher pipelines on a
parsed payload (success path of `sendBatch`). -/
def handleMessage (esize : Event → Nat) (cap : Nat) (topic now : String)
    (parsed : Parsed) : BatchState Event :=
  pubFinish ((normalizeToArray parsed).foldl
    (handlerStep esize cap topic now) ⟨[], [], []⟩)

/-! ### Insert pipeline (`src/unnamed/part_001`)

Same transform and ident guard, but the row is inserted into a table:
`insertDynamic` keeps only the row fields whose column exists in the
table and skips the insert when none is left. -/

/-- Rendering of a count of epoch milliseconds as "YYYY-MM-DD HH:mm:ss". -/
def mysqlDateTimeOfMs (ms : Int) : String :=
  let secs := Int.ediv ms 1000
  let dayN := Int.ediv secs 86400
  let sod := (Int.emod secs 86400).toNat
  let c := civilFromDays dayN
  padYear c.1 ++ "-" ++ pad2 c.2.1 ++ "-" ++ pad2 c.2.2 ++ " " ++
    pad2 (sod / 3600) ++ ":" ++ pad2 (sod % 3600 / 60) ++ ":" ++
    pad2 (sod % 60)

/-- `unixSecondsToMySQLDateTime(ts)` from `src/unnamed/part_001`: formats in
the process's local time, modelled by the clock offset `tzOffMin` in
minutes. -/
def unixSecondsToMySQLDateTime (tzOffMin : Int) (v : Prim) : Option String :=
  match jsNumber v with
  | none => none
  | some n =>
    let ms : Int := if n > 1000000000000 then n else n * 1000
    some (mysqlDateTimeOfMs (ms + tzOffMin * 60000))

/-- `buildRowFromPayload(p)` from `src/unnamed/part_001`: as the publisher's,
but the timestamp becomes a local "YYYY-MM-DD HH:mm:ss" string,
`insertDateTime` is `nowUtcMySQLDateTime()` and `mileage` is always 0. -/
def buildRowFromPayload01 (tzOffMin : Int) (p : Payload) (now : String) :
    Row :=
  let r : Row := {
    deviceID := (getKey p "ident").bind str
    protocolVersion := (getKey p "protocol.version").bind str
    dateTime := (getKey p "timestamp").bind (unixSecondsToMySQLDateTime tzOffMin)
    latitude := (getKey p "position.latitude").bind num
    longitude := (getKey p "position.longitude").bind num
    ignition_status := (getKey p "engine.ignition.status").bind b2i
    speed := (getKey p "position.speed").bind num
    mileage := (getKey p "vehicle.mileage").bind num
    mcc := (getKey p "gsm.mcc").bind num
    cellID := (getKey p "gsm.cellid").bind num
    lacID := (getKey p "gsm.lac").bind num
    altitude := (getKey p "position.altitude").bind num }
  { r with
    OperadorGps := some "QL-GV300"
    imei := r.deviceID
    bat := some 100
    battery := some 100
    lock_status := some 1
    insertDateTime := some now
    mileage := some 0 }

/-- The fields present on a row, as column-name/value pairs, in the order
`Object.keys` enumerates them for these rows. -/
def rowFields (r : Row) : List (String × Prim) :=
  (match r.deviceID with | some v => [("deviceID", Prim.pstr v)] | none => []) ++
  (match r.protocolVersion with | some v => [("protocolVersion", Prim.pstr v)] | none => []) ++
  (match r.dateTime with | some v => [("dateTime", Prim.pstr v)] | none => []) ++
  (match r.latitude with | some v => [("latitude", Prim.pnum v)] | none => []) ++
  (match r.longitude with | some v => [("longitude", Prim.pnum v)] | none => []) ++
  (match r.ignition_status with | some v => [("ignition_status", Prim.pnum v)] | none => []) ++
  (match r.speed with | some v => [("speed", Prim.pnum v)] | none => []) ++
  (match r.mileage with | some v => [("mileage", Prim.pnum v)] | none => []) ++
  (match r.mcc with | some v => [("mcc", Prim.pnum v)] | none => []) ++
  (match r.cellID with | some v => [("cellID", Prim.pnum v)] | none => []) ++
  (match r.lacID with | some v => [("lacID", Prim.pnum v)] | none => []) ++
  (match r.altitude with | some v => [("altitude", Prim.pnum v)] | none => []) ++
  (match r.OperadorGps with | some v => [("OperadorGps", Prim.pstr v)] | none => []) ++
  (match r.imei with | some v => [("imei", Prim.pstr v)] | none => []) ++
  (match r.bat with | some v => [("bat", Prim.pnum v)] | none => []) ++
  (match r.battery with | some v => [("battery", Prim.pnum v)] | none => []) ++
  (match r.lock_status with | some v => [("lock_status", Prim.pnum v)] | none => []) ++
  (match r.insertDateTime with | some v => [("insertDateTime", Prim.pstr v)] | none => [])

/-- `insertDynamic(db, tableColsSet, row)`: keep the row fields whose column
exists in the table; when none is left, no INSERT is issued. -/
def insertDynamic (tableCols : List String) (r : Row)
    (acc : List (List (String × Prim))) : List (List (String × Prim)) :=
  let cols := (rowFields r).filter (fun kv => tableCols.contains kv.1)
  if cols.isEmpty then acc else acc ++ [cols]

/-- One iteration of the insert loop of `src/unnamed/part_001`: build the
row, require `row.deviceID`, insert; a throwing item is caught and
skipped. -/
def insertStep (tzOffMin : Int) (tableCols : List String) (now : String)
    (acc : List (List (String × Prim))) : Item → List (List (String × Prim))
  | .prim _ => acc
  | .obj p =>
    let row := buildRowFromPayload01 tzOffMin p now
    match row.deviceID with
    | none => acc
    | some d =>
      if d = "" then acc
      else insertDynamic tableCols row acc

/-- The whole `client.on("message")` handler of the insert pipeline: the list
of rows (projected to existing columns) inserted for one message. -/
def handleInsertMessage (tzOffMin : Int) (tableCols : List String)
    (now : String) (parsed : Parsed) : List (List (String × Prim)) :=
  (normalizeToArray parsed).foldl (insertStep tzOffMin tableCols now) []

/-! ### Batch publisher with fallible `sendBatch`

The same loop (`src/unnamed/part_000` flavour, which counts skips) but with
`await producer.sendBatch(batch)` allowed to reject. `oracle k` is the
outcome of the k-th `sendBatch` call. A rejection inside the loop is raised
at the `await` inside the per-record `try`, so the catch logs, counts the
item as skipped and the loop continues — with `batch` still holding the old
full batch, since the reassignment after `sendBatch` never ran. The final
`sendBatch` is outside the `try`, so its rejection leaves the handler. -/

/-- Publisher state with an attempt log: each `sendBatch` call is recorded as
the batch passed and whether the call succeeded. -/
structure PubEState (E : Type) where
  attempts : List (List E × Bool)
  cur : List E
  sends : Nat
  skipped : Nat
deriving DecidableEq, Repr

/-- `await producer.sendBatch(batch)` under the outcome oracle: records the
attempt and reports the outcome. -/
def sendE (oracle : Nat → Bool) (s : PubEState E) : PubEState E × Bool :=
  let ok := oracle s.sends
  ({ s with attempts := s.attempts ++ [(s.cur, ok)], sends := s.sends + 1 },
   ok)

/-- One iteration of the publish loop with fallible sends: on a failed
mid-loop flush the exception is caught by the per-record catch, the item is
counted skipped and the open batch is left as it was. -/
def pubStepE (size : E → Nat) (cap : Nat) (oracle : Nat → Bool)
    (s : PubEState E) (e : E) : PubEState E :=
  if tryAdd size cap s.cur e then { s with cur := s.cur ++ [e] }
  else
    let r := sendE oracle s
    if r.2 then
      let s2 := { r.1 with cur := ([] : List E) }
      if tryAdd size cap s2.cur e then { s2 with cur := s2.cur ++ [e] }
      else { s2 with skipped := s2.skipped + 1 }
    else { r.1 with skipped := r.1.skipped + 1 }

/-- End of input with fallible sends: a non-empty open batch is attempted
once; success or failure, the handler ends afterwards. -/
def pubFinishE (oracle : Nat → Bool) (s : PubEState E) : PubEState E :=
  if s.cur.isEmpty then s else (sendE oracle s).1

/-- The whole publish pass with fallible sends. -/
def publishE (size : E → Nat) (cap : Nat) (oracle : Nat → Bool)
    (events : List E) : PubEState E :=
  pubFinishE oracle (events.foldl (pubStepE size cap oracle) ⟨[], [], 0, 0⟩)

/-- The predicate "after a failed flush, no further batch is sent": every
failed attempt in the log is the last attempt. -/
def noSendAfterFailedFlush : List (List E × Bool) → Bool
  | [] => true
  | (_, ok) :: rest =>
    if ok then noSendAfterFailedFlush rest else rest.isEmpty

/-! ### Message dispatch

`client.on("message", async (...) => { ... })` registers the handler for
every arriving MQTT message. The registration consults no running/idle
flag: every message starts a handler execution at once, whether or not an
earlier one is still awaiting I/O. `inflight` counts handler executions
started and not yet completed; a trace interleaves message arrivals
(`true`) and handler completions (`false`). -/

/-- A message arrives: the handler is invoked unconditionally. -/
def onMessage (inflight : Nat) : Nat := inflight + 1

/-- A handler execution completes. -/
def onHandlerDone (inflight : Nat) : Nat := inflight - 1

/-- Replay a trace of arrivals and completions. -/
def runSched : List Bool → Nat → Nat
  | [], s => s
  | ev :: tl, s => runSched tl (if ev then onMessage s else onHandlerDone s)

/-- All in-flight counts visited along a trace. -/
def schedStates : List Bool → Nat → List Nat
  | [], s => [s]
  | ev :: tl, s => s :: schedStates tl (if ev then onMessage s else onHandlerDone s)

/-! ### Configuration checks at startup -/

/-- The environment variables the two entry points read. -/
structure Env where
  FLESPI_TOKEN : Option String := none
  CHANNEL_ID : Option String := none
  EVENTHUB_CONNECTION_STRING : Option String := none
  EVENTHUB_NAME : Option String := none
  PORT : Option String := none
  MYSQL_HOST : Option String := none
  MYSQL_PORT : Option String := none
  MYSQL_USER : Option String := none
  MYSQL_PASSWORD : Option String := none
  MYSQL_DATABASE : Option String := none
deriving DecidableEq, Repr

/-- JS truthiness of an environment variable: set and non-empty. -/
def truthy : Option String → Bool
  | none => false
  | some s => !(s == "")

/-- The configuration `src/app.js` runs with once its checks pass. -/
structure AppConfig where
  token : String
  channel : String
  connString : String
  hubName : String
  port : String
deriving DecidableEq, Repr

/-- The `throw new Error("Falta ...")` checks at the top of `src/app.js`,
plus the port the liveness server later listens on
(`process.env.PORT || 3000`). -/
def appStartup (e : Env) : Except String AppConfig :=
  if !truthy e.FLESPI_TOKEN then .error "Falta FLESPI_TOKEN"
  else if !truthy e.CHANNEL_ID then .error "Falta CHANNEL_ID"
  else if !truthy e.EVENTHUB_CONNECTION_STRING then
    .error "Falta EVENTHUB_CONNECTION_STRING"
  else if !truthy e.EVENTHUB_NAME then .error "Falta EVENTHUB_NAME"
  else .ok {
    token := e.FLESPI_TOKEN.getD ""
    channel := e.CHANNEL_ID.getD ""
    connString := e.EVENTHUB_CONNECTION_STRING.getD ""
    hubName := e.EVENTHUB_NAME.getD ""
    port := if truthy e.PORT then e.PORT.getD "" else "3000" }

/-- The configuration `src/index.js` runs with once its checks pass. -/
structure IndexConfig where
  token : String
  channel : String
  host : String
  user : String
  password : String
  database : String
deriving DecidableEq, Repr

/-- The checks at the top of `src/index.js`: flespi token and channel, then
the three required MySQL variables; password defaults to the empty string,
the MySQL port to 3306. -/
def indexStartup (e : Env) : Except String IndexConfig :=
  if !truthy e.FLESPI_TOKEN then .error "Falta FLESPI_TOKEN"
  else if !truthy e.CHANNEL_ID then .error "Falta CHANNEL_ID"
  else if !truthy e.MYSQL_HOST || !truthy e.MYSQL_USER ||
      !truthy e.MYSQL_DATABASE then
    .error "Faltan variables MySQL (MYSQL_HOST, MYSQL_USER, MYSQL_DATABASE)"
  else .ok {
    token := e.FLESPI_TOKEN.getD ""
    channel := e.CHANNEL_ID.getD ""
    host := e.MYSQL_HOST.getD ""
    user := e.MYSQL_USER.getD ""
    password := if truthy e.MYSQL_PASSWORD then e.MYSQL_PASSWORD.getD "" else ""
    database := e.MYSQL_DATABASE.getD "" }

/-- Whether a startup attempt succeeded. -/
def startupOk {C : Type} : Except String C → Bool
  | .ok _ => true
  | .error _ => false

/-! ### Outbox cycle with Commit Marker

Modelled from the spec: the Batch Reader / Commit Marker side of the
pipeline (`fetchPending`, the `processed` flag and `markProcessed`, spec
§3, §4.1, §4.3–4.4) is not part of the sources under `src/`; only the
publisher's batch loop is. The definitions below follow the spec's words: a
cycle transforms the pending records, publishes them through the
size-bounded batch loop where a flush failure aborts the cycle (§4.3), and
then marks exactly the identifiers whose event was part of a successfully
flushed batch (§4.4). A record is a pair of its `recordID` and the
serialized size of its event. -/

/-- Modelled from the spec: state of the aborting publish loop of §4.3 —
successfully flushed batches, the open batch, the send counter, the
oversized events, and whether a flush failure aborted the cycle. -/
structure SpecCycleState (E : Type) where
  sent : List (List E)
  cur : List E
  sends : Nat
  skippedBig : List E
  aborted : Bool
deriving DecidableEq, Repr

/-- Modelled from the spec: one step of §4.3's loop with abort-on-failure —
append, or flush + fresh batch + one retried append, or record oversized;
a failed flush aborts the remainder of the cycle. -/
def specCycleStep (size : E → Nat) (cap : Nat) (oracle : Nat → Bool)
    (s : SpecCycleState E) (e : E) : SpecCycleState E :=
  if s.aborted then s
  else if tryAdd size cap s.cur e then { s with cur := s.cur ++ [e] }
  else if oracle s.sends then
    let s1 := { s with sent := s.sent ++ [s.cur], sends := s.sends + 1,
                       cur := ([] : List E) }
    if tryAdd size cap s1.cur e then { s1 with cur := s1.cur ++ [e] }
    else { s1 with skippedBig := s1.skippedBig ++ [e] }
  else { s with sends := s.sends + 1, aborted := true }

/-- Modelled from the spec: the final flush of §4.3 under abort-on-failure. -/
def specCycleFinish (oracle : Nat → Bool) (s : SpecCycleState E) :
    SpecCycleState E :=
  if s.aborted then s
  else if s.cur.isEmpty then s
  else if oracle s.sends then
    { s with sent := s.sent ++ [s.cur], sends := s.sends + 1, cur := [] }
  else { s with sends := s.sends + 1, aborted := true }

/-- Modelled from the spec: the publish phase of one cycle. -/
def specPublishCycle (size : E → Nat) (cap : Nat) (oracle : Nat → Bool)
    (events : List E) : SpecCycleState E :=
  specCycleFinish oracle
    (events.foldl (specCycleStep size cap oracle) ⟨[], [], 0, [], false⟩)

/-- Modelled from the spec: `markProcessed(ids)` of §4.4 sets the
`processed` flag of the given identifiers to true. -/
def markProcessed (ids : List Nat) (store : Nat → Bool) : Nat → Bool :=
  fun r => if r ∈ ids then true else store r

/-- Modelled from the spec: the identifiers handed to the Commit Marker —
those whose event was part of a successfully flushed batch (§4.4). -/
def cycleMarkIds (cap : Nat) (oracle : Nat → Bool)
    (records : List (Nat × Nat)) : List Nat :=
  ((specPublishCycle Prod.snd cap oracle records).sent).flatten.map Prod.fst

/-- Modelled from the spec: the store after one full cycle — publish, then
mark exactly the successfully published identifiers. -/
def runCycle (cap : Nat) (oracle : Nat → Bool) (records : List (Nat × Nat))
    (store : Nat → Bool) : Nat → Bool :=
  markProcessed (cycleMarkIds cap oracle records) store

/-! ## Theorems -/

/-- C7: transforming the same payload twice, at different wall-clock
instants `t1` and `t2`, yields the same `eventID` both times — the capture
timestamp `insertDateTime` stamped at transform time is not part of the
idempotency key. -/
theorem C7_eventId_idempotent_across_runs (p : Payload) (t1 t2 : String) :
    makeEventId (buildRowFromPayload p t1)
      = makeEventId (buildRowFromPayload p t2) := rfl

/-- C5 counterexample: two distinct records from the same device with the
same timestamp (differing in latitude) receive the SAME `eventID` — the
synthesized id has no third `recordID` component. -/
theorem C5_counterexample_eventId_collision :
    makeEventId (buildRowFromPayload
        [("ident", Prim.pstr "A"), ("timestamp", Prim.pnum 1000),
         ("position.latitude", Prim.pnum 1)] "T")
      = makeEventId (buildRowFromPayload
        [("ident", Prim.pstr "A"), ("timestamp", Prim.pnum 1000),
         ("position.latitude", Prim.pnum 2)] "T")
    ∧ buildRowFromPayload
        [("ident", Prim.pstr "A"), ("timestamp", Prim.pnum 1000),
         ("position.latitude", Prim.pnum 1)] "T"
      ≠ buildRowFromPayload
        [("ident", Prim.pstr "A"), ("timestamp", Prim.pnum 1000),
         ("position.latitude", Prim.pnum 2)] "T" := by
  decide

/-- C5 (amended): the synthesized `eventID` is a composite of exactly two
components — the device identifier and the normalized timestamp — so any
two rows agreeing on those two fields receive the same `eventID`. -/
theorem C5_eventId_two_components (r1 r2 : Row)
    (hd : r1.deviceID = r2.deviceID) (ht : r1.dateTime = r2.dateTime) :
    makeEventId r1 = makeEventId r2 := by
  simp [makeEventId, hd, ht]

/-- Witness for `C5_eventId_two_components` at two concrete rows. -/
theorem C5_eventId_two_components_witness :
    makeEventId { deviceID := some "A", dateTime := some "D" }
      = makeEventId { deviceID := some "A", dateTime := some "D",
                      latitude := some 5 } :=
  C5_eventId_two_components
    { deviceID := some "A", dateTime := some "D" }
    { deviceID := some "A", dateTime := some "D", latitude := some 5 }
    rfl rfl

/-- C2: the publish loop as the code writes it coincides with the spec's
description — maintain one open batch; per event attempt an append; on
rejection flush, open a fresh batch, retry the append exactly once; a
second rejection records the event as skipped and processing continues; a
non-empty open batch is flushed after the input is exhausted. -/
theorem C2_publish_matches_spec_algorithm {E : Type} (size : E → Nat)
    (cap : Nat) (events : List E) :
    publish size cap events = specPublish size cap events := by
  have h : pubStep (E := E) size cap = specStep size cap := by
    funext s e
    simp only [pubStep, specStep, specFlush]
  simp only [publish, specPublish, pubFinish, specFlush, h]

/-- An accepted append leaves the batch growing at the end. -/
theorem pubStep_of_fit (size : E → Nat) (cap : Nat) (s : BatchState E)
    (e : E) (h : tryAdd size cap s.cur e = true) :
    pubStep size cap s e = { s with cur := s.cur ++ [e] } := by
  simp only [pubStep, h, if_pos]

/-- A rejected append of a fitting event flushes and restarts the batch. -/
theorem pubStep_of_flush (size : E → Nat) (cap : Nat) (s : BatchState E)
    (e : E) (h1 : tryAdd size cap s.cur e = false) (h2 : size e ≤ cap) :
    pubStep size cap s e = ⟨s.flushed ++ [s.cur], [e], s.skipped⟩ := by
  have h3 : tryAdd size cap [] e = true := by
    simp [tryAdd, batchSize, h2]
  simp only [pubStep, h1, h3]
  simp [batchSize]

/-- An event exceeding the ceiling on its own is flushed past and skipped. -/
theorem pubStep_of_big (size : E → Nat) (cap : Nat) (s : BatchState E)
    (e : E) (h2 : cap < size e) :
    pubStep size cap s e = ⟨s.flushed ++ [s.cur], [], s.skipped ++ [e]⟩ := by
  have h1 : tryAdd size cap s.cur e = false := by
    simp [tryAdd, batchSize]; omega
  have h3 : tryAdd size cap [] e = false := by
    simp [tryAdd, batchSize]; omega
  simp only [pubStep, h1, h3]
  simp

/-- Loop invariant: the events flushed so far followed by the open batch are
exactly the initial ones followed by the fitting events, in order; the
skipped list collects exactly the oversized events, in order. -/
theorem pubLoop_inv (size : E → Nat) (cap : Nat) (events : List E)
    (s : BatchState E) :
    ((events.foldl (pubStep size cap) s).flushed).flatten
        ++ (events.foldl (pubStep size cap) s).cur
      = (s.flushed.flatten ++ s.cur)
        ++ events.filter (fun e => decide (size e ≤ cap))
    ∧ (events.foldl (pubStep size cap) s).skipped
      = s.skipped ++ events.filter (fun e => decide (cap < size e)) := by
  induction events generalizing s with
  | nil => simp
  | cons e tl ih =>
    simp only [List.foldl_cons, List.filter_cons]
    by_cases hfit : size e ≤ cap
    · have hbig : ¬ (cap < size e) := by omega
      by_cases h1 : tryAdd size cap s.cur e = true
      · rw [pubStep_of_fit size cap s e h1]
        refine ⟨?_, ?_⟩
        · rw [(ih _).1]; simp [hfit, List.append_assoc]
        · rw [(ih _).2]; simp [hbig]
      · rw [pubStep_of_flush size cap s e (by simpa using h1) hfit]
        refine ⟨?_, ?_⟩
        · rw [(ih _).1]; simp [hfit, List.append_assoc]
        · rw [(ih _).2]; simp [hbig]
    · have hbig : cap < size e := by omega
      rw [pubStep_of_big size cap s e hbig]
      refine ⟨?_, ?_⟩
      · rw [(ih _).1]; simp [hfit, List.append_assoc]
      · rw [(ih _).2]; simp [hbig, List.append_assoc]

/-- The final flush moves the open batch into the flushed ones and touches
nothing else. -/
theorem pubFinish_flatten (s : BatchState E) :
    ((pubFinish s).flushed).flatten = s.flushed.flatten ++ s.cur
    ∧ (pubFinish s).skipped = s.skipped := by
  unfold pubFinish
  by_cases h : s.cur.isEmpty
  · rcases List.isEmpty_iff.mp (by simpa using h) with h'
    simp [h, h']
  · simp [h]

/-- C6: packing into wire batches is order-preserving and exact — the
concatenation of the flushed batches is precisely the input sequence
restricted to the events that fit the ceiling (each such event in exactly
one flushed batch, none dropped, none duplicated, in input order), and the
events marked oversized are precisely those exceeding the ceiling alone. -/
theorem C6_batching_order_preserving_exact {E : Type} (size : E → Nat)
    (cap : Nat) (events : List E) :
    ((publish size cap events).flushed).flatten
      = events.filter (fun e => decide (size e ≤ cap))
    ∧ (publish size cap events).skipped
      = events.filter (fun e => decide (cap < size e)) := by
  unfold publish
  constructor
  · rw [(pubFinish_flatten _).1, (pubLoop_inv size cap events ⟨[], [], []⟩).1]
    simp
  · rw [(pubFinish_flatten _).2, (pubLoop_inv size cap events ⟨[], [], []⟩).2]
    simp

/-- C3 counterexample: with three unit-size events, a ceiling of two and the
first `sendBatch` call rejecting, the failed mid-loop flush does not abort
the handler — the same batch is sent again by the final flush, and that
later send succeeds; so a flush failure is followed by a further sent
batch. -/
theorem C3_counterexample_flush_failure_not_aborting :
    (publishE (fun _ => 1) 2 (fun k => decide (k ≠ 0)) [10, 20, 30]).attempts
      = [([10, 20], false), ([10, 20], true)]
    ∧ noSendAfterFailedFlush
        (publishE (fun _ => 1) 2 (fun k => decide (k ≠ 0))
          [10, 20, 30]).attempts = false := by
  decide

/-- C3 (amended): a `sendBatch` failure raised by the mid-loop flush is
caught by the per-record catch and is record-scoped, not cycle-scoped: the
failed attempt is logged, the event whose append triggered the flush is
counted skipped, the open batch is left unchanged, and the loop continues
with the next event — so further batches (including the unchanged open one
at the final flush) may still be sent afterwards. -/
theorem C3_flush_failure_caught_record_scoped {E : Type} (size : E → Nat)
    (cap : Nat) (oracle : Nat → Bool) (s : PubEState E) (e : E)
    (h1 : tryAdd size cap s.cur e = false) (h2 : oracle s.sends = false) :
    pubStepE size cap oracle s e
      = { s with attempts := s.attempts ++ [(s.cur, false)],
                 sends := s.sends + 1, skipped := s.skipped + 1 } := by
  simp only [pubStepE, h1, sendE, h2]
  simp

/-- Witness for `C3_flush_failure_caught_record_scoped`: a full batch, a
unit event and an always-failing oracle. -/
theorem C3_flush_failure_caught_record_scoped_witness :
    pubStepE (fun _ => 1) 1 (fun _ => false) ⟨[], [5], 0, 0⟩ 6
      = ⟨[([5], false)], [5], 1, 1⟩ :=
  C3_flush_failure_caught_record_scoped (fun _ => 1) 1 (fun _ => false)
    ⟨[], [5], 0, 0⟩ 6 (by decide) rfl

/-- C4 counterexample: two message arrivals with no completion in between
put two handler executions in flight at once — the "at most one cycle in
flight, further triggers are no-ops" property fails on the guard-free
handler registration. -/
theorem C4_counterexample_two_cycles_in_flight :
    ¬ (∀ x ∈ schedStates [true, true] 0, x ≤ 1) := by
  decide

/-- Every arrival starts a handler, whatever is already running. -/
theorem runSched_replicate (n : Nat) (s : Nat) :
    runSched (List.replicate n true) s = s + n := by
  induction n generalizing s with
  | zero => simp [runSched]
  | succ k ih =>
    simp only [List.replicate_succ, runSched, if_pos, onMessage]
    rw [ih]
    omega

/-- C4 (amended): the handler registration has no running/idle guard — an
arriving message always starts one more handler execution, also while
another is in flight, so n arrivals with no completion leave n concurrent
executions; nothing is skipped or queued. -/
theorem C4_every_message_starts_handler :
    (∀ s : Nat, onMessage s = s + 1)
    ∧ (∀ n : Nat, runSched (List.replicate n true) 0 = n) := by
  refine ⟨fun s => rfl, fun n => ?_⟩
  simpa using runSched_replicate n 0

/-- C8: a record whose processing throws (a non-object item makes
`jsonKey in p` raise) is record-scoped in both pipelines: the surrounding
items are processed exactly as if the bad item were absent — the bad item
contributes no event and no inserted row, and the cycle is not aborted. -/
theorem C8_transform_error_record_scoped (esize : Event → Nat) (cap : Nat)
    (topic now : String) (tz : Int) (tableCols : List String) (v : Prim)
    (xs ys : List Item) (s : BatchState Event)
    (acc : List (List (String × Prim))) :
    (xs ++ Item.prim v :: ys).foldl (handlerStep esize cap topic now) s
      = (xs ++ ys).foldl (handlerStep esize cap topic now) s
    ∧ (xs ++ Item.prim v :: ys).foldl (insertStep tz tableCols now) acc
      = (xs ++ ys).foldl (insertStep tz tableCols now) acc := by
  constructor <;> simp [List.foldl_append, handlerStep, insertStep]

/-- C10: an item whose `ident` yields no device identifier — the key is
absent, its value is null, or it stringifies to the empty string — is
silently dropped by both pipelines (no event published, no row inserted),
while the surrounding items of the same message are processed exactly as
if it were absent. -/
theorem C10_missing_ident_item_dropped (esize : Event → Nat) (cap : Nat)
    (topic now : String) (tz : Int) (tableCols : List String) (p : Payload)
    (xs ys : List Item) (s : BatchState Event)
    (acc : List (List (String × Prim)))
    (h : (getKey p "ident").bind str = none) :
    (xs ++ Item.obj p :: ys).foldl (handlerStep esize cap topic now) s
      = (xs ++ ys).foldl (handlerStep esize cap topic now) s
    ∧ (xs ++ Item.obj p :: ys).foldl (insertStep tz tableCols now) acc
      = (xs ++ ys).foldl (insertStep tz tableCols now) acc
    ∧ ∀ w : Prim, str w = none ↔ (w = Prim.pnull ∨ jsString w = "") := by
  have hdev : (buildRowFromPayload p now).deviceID = none := h
  have hdev01 : (buildRowFromPayload01 tz p now).deviceID = none := h
  refine ⟨?_, ?_, ?_⟩
  · simp [List.foldl_append, handlerStep, hdev]
  · simp [List.foldl_append, insertStep, hdev01]
  · intro w
    cases w with
    | pstr s' => by_cases hs : s' = "" <;> simp [str, jsString, hs]
    | pbool b => cases b <;> simp [str, jsString]
    | pnum n => simp [str, jsString]
    | pnull => simp [str]

/-- Witness for `C10_missing_ident_item_dropped`: one item carrying only a
timestamp, no `ident`. -/
theorem C10_missing_ident_item_dropped_witness :
    ([Item.obj [("timestamp", Prim.pnum 5)]].foldl
        (handlerStep (fun _ => 1) 1 "t" "n") ⟨[], [], []⟩
      = ([] : List Item).foldl (handlerStep (fun _ => 1) 1 "t" "n")
          ⟨[], [], []⟩)
    ∧ ([Item.obj [("timestamp", Prim.pnum 5)]].foldl
        (insertStep 0 ["deviceID"] "n") []
      = ([] : List Item).foldl (insertStep 0 ["deviceID"] "n") [])
    ∧ ∀ w : Prim, str w = none ↔ (w = Prim.pnull ∨ jsString w = "") :=
  C10_missing_ident_item_dropped (fun _ => 1) 1 "t" "n" 0 ["deviceID"]
    [("timestamp", Prim.pnum 5)] [] [] ⟨[], [], []⟩ [] rfl

/-- An environment with the four variables `src/app.js` requires set, and
the liveness port unset. -/
def envNoPort : Env :=
  { FLESPI_TOKEN := some "t", CHANNEL_ID := some "c",
    EVENTHUB_CONNECTION_STRING := some "e", EVENTHUB_NAME := some "n" }

/-- C9 counterexample: with the four required variables of `src/app.js` set
but the liveness port absent, startup succeeds and the server later listens
on the default port 3000 — the port's absence does not fail startup. -/
theorem C9_counterexample_port_not_required :
    appStartup envNoPort
      = .ok { token := "t", channel := "c", connString := "e",
              hubName := "n", port := "3000" }
    ∧ startupOk (appStartup envNoPort) = true :=
  ⟨rfl, rfl⟩

/-- C9 (amended): startup fails exactly when a required connection variable
is absent or empty: for the publisher the flespi token, the channel and the
two Event Hubs variables; for the inserter the flespi token, the channel
and the three MySQL variables. The liveness port, the MySQL password and
the MySQL port are optional with defaults; batch read limit, update-chunk
size and tick interval are not read at all. -/
theorem C9_required_config_exactly (e : Env) :
    startupOk (appStartup e)
      = (truthy e.FLESPI_TOKEN && truthy e.CHANNEL_ID &&
         truthy e.EVENTHUB_CONNECTION_STRING && truthy e.EVENTHUB_NAME)
    ∧ startupOk (indexStartup e)
      = (truthy e.FLESPI_TOKEN && truthy e.CHANNEL_ID &&
         truthy e.MYSQL_HOST && truthy e.MYSQL_USER &&
         truthy e.MYSQL_DATABASE) := by
  constructor
  · unfold appStartup startupOk
    by_cases h1 : truthy e.FLESPI_TOKEN <;>
      by_cases h2 : truthy e.CHANNEL_ID <;>
        by_cases h3 : truthy e.EVENTHUB_CONNECTION_STRING <;>
          by_cases h4 : truthy e.EVENTHUB_NAME <;>
            simp [h1, h2, h3, h4]
  · unfold indexStartup startupOk
    by_cases h1 : truthy e.FLESPI_TOKEN <;>
      by_cases h2 : truthy e.CHANNEL_ID <;>
        by_cases h3 : truthy e.MYSQL_HOST <;>
          by_cases h4 : truthy e.MYSQL_USER <;>
            by_cases h5 : truthy e.MYSQL_DATABASE <;>
              simp [h1, h2, h3, h4, h5]

/-- C1 (spec-modelled): after one cycle, a record's `processed` flag never
goes true→false; it becomes newly true only for an identifier the Commit
Marker received; and every identifier the Commit Marker received belongs to
an event of a successfully flushed batch — no marking without a successful
publish, and at most one false→true transition since the flag is monotone. -/
theorem C1_commit_only_after_accepted (cap : Nat) (oracle : Nat → Bool)
    (records : List (Nat × Nat)) (store : Nat → Bool) (r : Nat) :
    (store r = true → runCycle cap oracle records store r = true)
    ∧ (runCycle cap oracle records store r = true →
        store r = true ∨ r ∈ cycleMarkIds cap oracle records)
    ∧ (r ∈ cycleMarkIds cap oracle records →
        ∃ b ∈ (specPublishCycle Prod.snd cap oracle records).sent,
          ∃ p ∈ b, p.1 = r) := by
  refine ⟨?_, ?_, ?_⟩
  · intro h
    unfold runCycle markProcessed
    split <;> simp [h]
  · intro h
    unfold runCycle markProcessed at h
    by_cases hm : r ∈ cycleMarkIds cap oracle records
    · exact Or.inr hm
    · left
      simpa [hm] using h
  · intro h
    unfold cycleMarkIds at h
    rcases List.mem_map.mp h with ⟨q, hq, hqr⟩
    rcases List.mem_flatten.mp hq with ⟨b, hb, hqb⟩
    exact ⟨b, hb, q, hqb, hqr⟩

/-- Witness for `C1_commit_only_after_accepted`: two records, both fitting
one batch, every flush succeeding; identifier 1 is marked, was in a
successfully flushed batch, and an already-true flag stays true. -/
theorem C1_commit_only_after_accepted_witness :
    (runCycle 10 (fun _ => true) [(1, 2), (2, 3)] (fun _ => true) 5 = true)
    ∧ ((fun _ => false : Nat → Bool) 1 = true
        ∨ 1 ∈ cycleMarkIds 10 (fun _ => true) [(1, 2), (2, 3)])
    ∧ (∃ b ∈ (specPublishCycle Prod.snd 10 (fun _ => true)
          [(1, 2), (2, 3)]).sent, ∃ p ∈ b, p.1 = 1) :=
  ⟨(C1_commit_only_after_accepted 10 (fun _ => true) [(1, 2), (2, 3)]
      (fun _ => true) 5).1 rfl,
   (C1_commit_only_after_accepted 10 (fun _ => true) [(1, 2), (2, 3)]
      (fun _ => false) 1).2.1 (by decide),
   (C1_commit_only_after_accepted 10 (fun _ => true) [(1, 2), (2, 3)]
      (fun _ => false) 1).2.2 (by decide)⟩

end Flespi
